import Mathlib

/-!
Verification of `src/scripts/generate-yogas.py`, a procedural generator of
astrological "yoga" records.  Python dictionaries that represent records are
embedded as a structure with optional category-specific fields (a field absent
from the Python dict is `none`); the generator loops are embedded as folds or
structural recursion threading the `(counter, yogas)` state exactly as the
source does.
-/

set_option maxRecDepth 100000

namespace YogaGen

/-- Embedding of a Python record dict: shared fields plus optional
category-specific fields (absent keys are `none`). -/
structure Yoga where
  id : String
  name : String
  effect : String
  type : String
  lord_house : Option Nat
  placed_house : Option Nat
  planet : Option String
  house : Option Nat
  planet1 : Option String
  planet2 : Option String
  from_house : Option Nat
  to_house : Option Nat
  aspect_type : Option String
  nakshatra : Option String
deriving DecidableEq, BEq

/-- Source line 12: the 9-planet vocabulary. -/
def planets : List String :=
  ["Sun", "Moon", "Mars", "Mercury", "Jupiter", "Venus", "Saturn", "Rahu", "Ketu"]

/-- Source line 13: `houses = list(range(1, 13))`. -/
def houses : List Nat := List.range' 1 12

/-- Source lines 20-33: the house-signification table. -/
def house_meanings (h : Nat) : String :=
  if h = 1 then "self, personality, physical body"
  else if h = 2 then "wealth, family, speech"
  else if h = 3 then "siblings, courage, communication"
  else if h = 4 then "mother, home, education, vehicles"
  else if h = 5 then "children, intelligence, creativity"
  else if h = 6 then "enemies, diseases, debts, service"
  else if h = 7 then "spouse, partnerships, business"
  else if h = 8 then "longevity, transformation, hidden wealth"
  else if h = 9 then "father, fortune, dharma, higher learning"
  else if h = 10 then "career, status, authority, karma"
  else if h = 11 then "gains, income, friendships, aspirations"
  else "losses, expenses, spirituality, foreign lands"

/-- Embedding of the Python format spec `{counter:03d}`: decimal digits padded
with leading zeros to width 3 (all counters in this program are already three
digits or more, so padding never fires, but the embedding keeps it). -/
def pad3 (n : Nat) : String :=
  let s := toString n
  if s.length < 3 then String.mk (List.replicate (3 - s.length) (Char.ofNat 48)) ++ s
  else s

/-- Source lines 66-71: `generate_effect`. -/
def generate_effect (lord_house placed_house : Nat) : String :=
  let lord_meaning := house_meanings lord_house
  let placed_meaning := house_meanings placed_house
  "The lord of " ++ toString lord_house ++ "th (" ++ lord_meaning ++ ") placed in "
    ++ toString placed_house ++ "th (" ++ placed_meaning
    ++ ") creates connection between these life areas, bringing benefits through their combination."

/-- Source line 41: the beneficial house set of the house-lordship generator. -/
def beneficial : List Nat := [1, 4, 5, 7, 9, 10, 11]

/-- The record dict built at source lines 49-61 of
`generate_house_lordship_yogas`. -/
def mk_house_lordship (counter lord_house placed_house : Nat) : Yoga :=
  { id := "HLORD_" ++ pad3 counter
    name := toString lord_house ++ "th Lord in " ++ toString placed_house ++ "th House Yoga"
    effect := generate_effect lord_house placed_house
    type := "house_lordship"
    lord_house := some lord_house
    placed_house := some placed_house
    planet := none, house := none, planet1 := none, planet2 := none
    from_house := none, to_house := none, aspect_type := none, nakshatra := none }

/-- Source lines 35-64: `generate_house_lordship_yogas`, nested loops over
`beneficial` threading `(counter, yogas)` with the `lord_house != placed_house`
guard. -/
def generate_house_lordship_yogas : List Yoga :=
  (beneficial.foldl (fun s lord_house =>
    beneficial.foldl (fun s placed_house =>
      if lord_house ≠ placed_house then
        (s.1 + 1, s.2 ++ [mk_house_lordship s.1 lord_house placed_house])
      else s) s) ((100, []) : Nat × List Yoga)).2

/-- Source lines 78-86: the `planet_effects` table. -/
def planet_effects (p : String) : String :=
  if p = "Sun" then "authority, vitality, father, government"
  else if p = "Moon" then "emotions, mother, public, mind"
  else if p = "Mars" then "courage, energy, siblings, property"
  else if p = "Mercury" then "intelligence, communication, business"
  else if p = "Jupiter" then "wisdom, wealth, children, fortune"
  else if p = "Venus" then "luxury, arts, spouse, vehicles"
  else "discipline, longevity, servants, delays"

/-- The record dict built at source lines 90-102 of
`generate_planet_house_yogas`. -/
def mk_planet_house (counter : Nat) (planet : String) (house : Nat) : Yoga :=
  { id := "PH_" ++ pad3 counter
    name := planet ++ " in " ++ toString house ++ "th House"
    effect := planet ++ " (" ++ planet_effects planet ++ ") influences " ++ toString house
      ++ "th house (" ++ house_meanings house ++ ")"
    type := "planet_house"
    lord_house := none, placed_house := none
    planet := some planet
    house := some house
    planet1 := none, planet2 := none
    from_house := none, to_house := none, aspect_type := none, nakshatra := none }

/-- Source lines 73-105: `generate_planet_house_yogas`, 7 classical planets
times houses 1-12. -/
def generate_planet_house_yogas : List Yoga :=
  ((["Sun", "Moon", "Mars", "Mercury", "Jupiter", "Venus", "Saturn"] : List String).foldl
    (fun s planet =>
      (List.range' 1 12).foldl (fun s house =>
        (s.1 + 1, s.2 ++ [mk_planet_house s.1 planet house])) s)
    ((200, []) : Nat × List Yoga)).2

/-- Source lines 134-136: `generate_conjunction_effect`. -/
def generate_conjunction_effect (p1 p2 : String) : String :=
  "Conjunction of " ++ p1 ++ " and " ++ p2
    ++ " combines their energies, creating unique results in the house of placement."

/-- The record dict built at source lines 117-129 of
`generate_conjunction_yogas`. -/
def mk_conjunction (counter : Nat) (planet1 planet2 : String) : Yoga :=
  { id := "CONJ_" ++ pad3 counter
    name := planet1 ++ "-" ++ planet2 ++ " Conjunction"
    effect := generate_conjunction_effect planet1 planet2
    type := "conjunction"
    lord_house := none, placed_house := none, planet := none, house := none
    planet1 := some planet1
    planet2 := some planet2
    from_house := none, to_house := none, aspect_type := none, nakshatra := none }

/-- Source lines 107-132: `generate_conjunction_yogas`.  The outer loop is
`enumerate(planets[:-1])`, the inner loop slices the full list from index
`i+1`, and pairs containing the string "Ascendant" are skipped. -/
def generate_conjunction_yogas : List Yoga :=
  ((planets.dropLast.enum).foldl (fun s ip =>
    (planets.drop (ip.1 + 1)).foldl (fun s planet2 =>
      if ip.2 = "Ascendant" ∨ planet2 = "Ascendant" then s
      else (s.1 + 1, s.2 ++ [mk_conjunction s.1 ip.2 planet2])) s)
    ((300, []) : Nat × List Yoga)).2

/-- Source lines 143-149: the fixed aspect table of
(angular-distance, target-house-offset, aspect-type) triples. -/
def aspects : List (Nat × Nat × String) :=
  [(1, 7, "opposition"), (1, 4, "square"), (1, 5, "trine"), (1, 9, "trine"), (1, 10, "square")]

/-- Source line 154: the 1-indexed wraparound target-house formula
`((from_house + to_house_offset - 1) % 12) + 1`. -/
def to_house_of (from_house to_house_offset : Nat) : Nat :=
  ((from_house + to_house_offset - 1) % 12) + 1

/-- The record dict built at source lines 156-168 of `generate_aspect_yogas`. -/
def mk_aspect (counter : Nat) (planet : String) (from_house to_house : Nat)
    (a_type : String) : Yoga :=
  { id := "ASP_" ++ pad3 counter
    name := planet ++ " " ++ a_type ++ " aspect from " ++ toString from_house ++ " to "
      ++ toString to_house
    effect := planet ++ " casts " ++ a_type ++ " aspect"
    type := "aspect"
    lord_house := none, placed_house := none
    planet := some planet
    house := none, planet1 := none, planet2 := none
    from_house := some from_house
    to_house := some to_house
    aspect_type := some a_type
    nakshatra := none }

/-- Innermost loop of `generate_aspect_yogas` (source lines 153-172): iterate
the aspect triples, append a record, bump the counter, and return early
(flag `true`) once `counter > 600`. -/
def aspect_loop_aspects (planet : String) (from_house : Nat) :
    List (Nat × Nat × String) → Nat → List Yoga → Nat × List Yoga × Bool
  | [], counter, yogas => (counter, yogas, false)
  | t :: rest, counter, yogas =>
    let to_house := to_house_of from_house t.2.1
    let yogas2 := yogas ++ [mk_aspect counter planet from_house to_house t.2.2]
    let counter2 := counter + 1
    if counter2 > 600 then (counter2, yogas2, true)
    else aspect_loop_aspects planet from_house rest counter2 yogas2

/-- Middle loop of `generate_aspect_yogas` (source line 152): iterate
`from_house` over 1-12, propagating an early return from the inner loop. -/
def aspect_loop_houses (planet : String) :
    List Nat → Nat → List Yoga → Nat × List Yoga × Bool
  | [], counter, yogas => (counter, yogas, false)
  | fh :: rest, counter, yogas =>
    let r := aspect_loop_aspects planet fh aspects counter yogas
    if r.2.2 then r else aspect_loop_houses planet rest r.1 r.2.1

/-- Outer loop of `generate_aspect_yogas` (source line 151): iterate the four
aspecting planets, propagating an early return. -/
def aspect_loop_planets :
    List String → Nat → List Yoga → Nat × List Yoga × Bool
  | [], counter, yogas => (counter, yogas, false)
  | p :: rest, counter, yogas =>
    let r := aspect_loop_houses p (List.range' 1 12) counter yogas
    if r.2.2 then r else aspect_loop_planets rest r.1 r.2.1

/-- Source lines 138-174: `generate_aspect_yogas`, counter starting at 400 with
the `counter > 600` early return. -/
def generate_aspect_yogas : List Yoga :=
  (aspect_loop_planets ["Jupiter", "Saturn", "Mars", "Rahu"] 400 []).2.1

/-- Source lines 178-184: the 27 nakshatra names. -/
def nakshatras : List String :=
  ["Ashwini", "Bharani", "Krittika", "Rohini", "Mrigashira", "Ardra",
   "Punarvasu", "Pushya", "Ashlesha", "Magha", "Purva Phalguni", "Uttara Phalguni",
   "Hasta", "Chitra", "Swati", "Vishakha", "Anuradha", "Jyeshtha",
   "Mula", "Purva Ashadha", "Uttara Ashadha", "Shravana", "Dhanishta", "Shatabhisha",
   "Purva Bhadrapada", "Uttara Bhadrapada", "Revati"]

/-- The record dict built at source lines 191-201 of
`generate_nakshatra_yogas`. -/
def mk_nakshatra (counter : Nat) (planet nakshatra : String) : Yoga :=
  { id := "NAK_" ++ pad3 counter
    name := planet ++ " in " ++ nakshatra ++ " Nakshatra"
    effect := planet ++ " in " ++ nakshatra ++ " nakshatra creates specific results"
    type := "nakshatra"
    lord_house := none, placed_house := none
    planet := some planet
    house := none, planet1 := none, planet2 := none
    from_house := none, to_house := none, aspect_type := none
    nakshatra := some nakshatra }

/-- Source lines 176-204: `generate_nakshatra_yogas`, 27 nakshatras times 6
planets. -/
def generate_nakshatra_yogas : List Yoga :=
  (nakshatras.foldl (fun s nakshatra =>
    (["Sun", "Moon", "Mars", "Mercury", "Jupiter", "Venus"] : List String).foldl
      (fun s planet => (s.1 + 1, s.2 ++ [mk_nakshatra s.1 planet nakshatra])) s)
    ((700, []) : Nat × List Yoga)).2

/-- Source lines 208-223 of `main`: the aggregated list, built by extending an
initially empty list with the five generators' outputs in the fixed order. -/
def all_yogas : List Yoga :=
  (([] : List Yoga) ++ generate_house_lordship_yogas ++ generate_planet_house_yogas
    ++ generate_conjunction_yogas ++ generate_aspect_yogas ++ generate_nakshatra_yogas)

/-- Embedding of the Python dict update `types[t] = types.get(t, 0) + 1`
(source line 237): bump in place, insertion order preserved. -/
def dict_bump : List (String × Nat) → String → List (String × Nat)
  | [], t => [(t, 1)]
  | kv :: rest, t => if kv.1 = t then (kv.1, kv.2 + 1) :: rest else kv :: dict_bump rest t

/-- Source lines 234-237 of `main`: the per-category frequency count of the
`type` field over the aggregated list. -/
def types_stats : List (String × Nat) :=
  all_yogas.foldl (fun d y => dict_bump d y.type) []

/-- A house-valued field that is present and within 1-12. -/
def valid_house_field (h : Option Nat) : Bool :=
  match h with
  | some n => decide (1 ≤ n) && decide (n ≤ 12)
  | none => false

/-- A planet-valued field that is present and drawn from the 9-planet
vocabulary. -/
def valid_planet_field (p : Option String) : Bool :=
  match p with
  | some s => planets.contains s
  | none => false

/-- The record invariant: the `type` tag is one of the five category tags, the
category-specific fields required for that tag are present, house fields are in
1-12, planet fields are in the planet vocabulary, and the aspect type is one of
opposition, square, trine. -/
def record_ok (y : Yoga) : Bool :=
  if y.type = "house_lordship" then
    valid_house_field y.lord_house && valid_house_field y.placed_house
  else if y.type = "planet_house" then
    valid_planet_field y.planet && valid_house_field y.house
  else if y.type = "conjunction" then
    valid_planet_field y.planet1 && valid_planet_field y.planet2
  else if y.type = "aspect" then
    valid_planet_field y.planet && valid_house_field y.from_house
      && valid_house_field y.to_house
      && (y.aspect_type == some ("opposition") || y.aspect_type == some ("square")
        || y.aspect_type == some ("trine"))
  else if y.type = "nakshatra" then
    valid_planet_field y.planet && y.nakshatra.isSome
  else false

/-- The numeric value of a decimal digit character. -/
def digit_val (c : Char) : Nat := c.toNat - 48

/-- The number formed by the decimal digits of a string, here the counter
suffix of a record id (the prefixes contain no digits). -/
def id_key (s : String) : Nat :=
  s.data.foldl (fun acc c => if c.isDigit then acc * 10 + digit_val c else acc) 0

/-- A strict-increase check on a list of naturals, executable by reduction. -/
def increasing : List Nat → Bool
  | [] => true
  | [_] => true
  | a :: b :: rest => decide (a < b) && increasing (b :: rest)

/-- Stated from claim C10 for comparison with `generate_conjunction_yogas`:
the plain enumeration of all index pairs (i, j) with i < j over the full
9-planet list, with the same record synthesis and counter, but no `[:-1]`
slice of the outer list and no Ascendant skip. -/
def conjunction_plain : List Yoga :=
  ((planets.enum).foldl (fun s ip =>
    (planets.drop (ip.1 + 1)).foldl (fun s planet2 =>
      (s.1 + 1, s.2 ++ [mk_conjunction s.1 ip.2 planet2])) s)
    ((300, []) : Nat × List Yoga)).2

/-- A JSON string literal (the fixed vocabularies and templates contain no
character needing an escape). -/
def jstr (s : String) : String := "\"" ++ s ++ "\""

/-- The key/value pairs of one serialized record, in the per-category key
insertion order of the source dicts. -/
def yoga_fields (y : Yoga) : List (String × String) :=
  [("id", jstr y.id), ("name", jstr y.name)]
    ++ (match y.lord_house with | some n => [("lord_house", toString n)] | none => [])
    ++ (match y.placed_house with | some n => [("placed_house", toString n)] | none => [])
    ++ (match y.planet with | some p => [("planet", jstr p)] | none => [])
    ++ (match y.house with | some n => [("house", toString n)] | none => [])
    ++ (match y.planet1 with | some p => [("planet1", jstr p)] | none => [])
    ++ (match y.planet2 with | some p => [("planet2", jstr p)] | none => [])
    ++ (match y.from_house with | some n => [("from_house", toString n)] | none => [])
    ++ (match y.to_house with | some n => [("to_house", toString n)] | none => [])
    ++ (match y.aspect_type with | some a => [("aspect_type", jstr a)] | none => [])
    ++ (match y.nakshatra with | some n => [("nakshatra", jstr n)] | none => [])
    ++ [("effect", jstr y.effect), ("type", jstr y.type)]

/-- Interleave a separator between list elements. -/
def join_sep (sep : String) : List String → String
  | [] => ""
  | [x] => x
  | x :: y :: rest => x ++ sep ++ join_sep sep (y :: rest)

/-- One serialized record object, indented by two spaces per level. -/
def render_record (y : Yoga) : String :=
  "  \x7b\n"
    ++ join_sep (",\n") ((yoga_fields y).map (fun kv => "    " ++ jstr kv.1 ++ ": " ++ kv.2))
    ++ "\n  \x7d"

/-- Modelled from the spec: the serialized output document, a single structured
array of the records, human-readably indented (the source delegates the
rendering to `json.dump(all_yogas, f, indent=2)`, library code outside the
repository; only that it is a fixed deterministic function of the record list
matters here). -/
def json_doc (ys : List Yoga) : String :=
  "[\n" ++ join_sep (",\n") (ys.map render_record) ++ "\n]"

/-- Source lines 206-231 of `main`: one run of the pipeline, as a function of
whatever output artifact a prior run may have left behind.  The argument is
ignored: the output file is opened in write mode and fully replaced, and no
generator reads any input.  The result is the generated record list and the
serialized document. -/
def run_pipeline (prior_artifact : Option String) : List Yoga × String :=
  let _ := prior_artifact
  (all_yogas, json_doc all_yogas)

/-- Soundness of the strict-increase check: it implies a `<`-chain. -/
theorem increasing_chain :
    ∀ l : List Nat, increasing l = true → List.Chain' (fun a b => a < b) l
  | [] => fun _ => trivial
  | [a] => fun _ => List.chain'_singleton a
  | a :: b :: rest => fun h => by
    simp only [increasing, Bool.and_eq_true] at h
    exact List.chain'_cons.mpr ⟨of_decide_eq_true h.1, increasing_chain (b :: rest) h.2⟩

/-- Claim C1 counterexample: the aspect generator does not emit at most
600 minus the starting offset 400 records; it emits 201, one more. -/
theorem C1_counterexample : ¬ (generate_aspect_yogas.length ≤ 600 - 400) := by decide

/-- Claim C1 amended: the record counter starts at 400 and generation stops as
soon as the counter exceeds the ceiling 600, but the check fires only after a
record is appended and the counter incremented, so the record appended at
counter 600 is still emitted and the number of emitted aspect records never
exceeds 600 minus the starting offset 400 plus one, that is 201. -/
theorem C1_aspect_cap : generate_aspect_yogas.length ≤ 600 - 400 + 1 := by decide

/-- Claim C5 counterexample: from_house 1 with offset 7 does not yield target
house 7; the formula gives ((1 + 7 - 1) mod 12) + 1 = 8. -/
theorem C5_counterexample : ¬ (to_house_of 1 7 = 7) := by decide

/-- Claim C5 amended: the wraparound target-house formula lands in 1-12 for
every source house in 1-12 and every offset in the aspect table, and in
particular from_house 1 with offset 7 gives 8 and from_house 10 with offset 10
gives 8. -/
theorem C5_wraparound :
    (∀ fh ∈ houses, ∀ off ∈ [7, 4, 5, 9, 10],
      1 ≤ to_house_of fh off ∧ to_house_of fh off ≤ 12)
    ∧ to_house_of 1 7 = 8 ∧ to_house_of 10 10 = 8 := by decide

/-- Witness for C5 at from_house 1, offset 7. -/
theorem C5_witness : 1 ≤ to_house_of 1 7 ∧ to_house_of 1 7 ≤ 12 :=
  C5_wraparound.1 1 (by decide) 7 (by decide)

/-- Claim C3: the house-lordship generator emits exactly one record for every
ordered pair of distinct houses from the beneficial set, emits nothing else,
and its total output count is 42. -/
theorem C3_house_lordship :
    (∀ L ∈ beneficial, ∀ P ∈ beneficial, L ≠ P →
      generate_house_lordship_yogas.countP
        (fun y => y.lord_house == some L && y.placed_house == some P) = 1)
    ∧ (∀ y ∈ generate_house_lordship_yogas,
        ∃ L ∈ beneficial, ∃ P ∈ beneficial, L ≠ P
          ∧ y.lord_house = some L ∧ y.placed_house = some P)
    ∧ generate_house_lordship_yogas.length = 42 :=
  ⟨@of_decide_eq_true _
      (@List.decidableBAll _ _
        (fun _ => @List.decidableBAll _ _ (fun _ => inferInstance) beneficial) beneficial)
      rfl,
    @of_decide_eq_true _
      (@List.decidableBAll _ _
        (fun _ => @List.decidableBEx _ _
          (fun _ => @List.decidableBEx _ _ (fun _ => inferInstance) beneficial) beneficial)
        generate_house_lordship_yogas)
      rfl,
    by decide⟩

/-- Witness for C3 at the pair (1, 4). -/
theorem C3_witness :
    generate_house_lordship_yogas.countP
      (fun y => y.lord_house == some 1 && y.placed_house == some 4) = 1 :=
  C3_house_lordship.1 1 (by decide) 4 (by decide) (by decide)

/-- Claim C4: the conjunction generator emits 36 records, no record pairs a
planet with itself, and every unordered pair of distinct planets from the
9-planet vocabulary appears in exactly one record. -/
theorem C4_conjunction :
    generate_conjunction_yogas.length = 36
    ∧ (∀ y ∈ generate_conjunction_yogas,
        y.planet1.isSome ∧ y.planet2.isSome ∧ y.planet1 ≠ y.planet2)
    ∧ (∀ p ∈ planets, ∀ q ∈ planets, p ≠ q →
        generate_conjunction_yogas.countP
          (fun y => (y.planet1 == some p && y.planet2 == some q)
            || (y.planet1 == some q && y.planet2 == some p)) = 1) :=
  ⟨by decide,
    @of_decide_eq_true _
      (@List.decidableBAll _ _ (fun _ => inferInstance) generate_conjunction_yogas)
      rfl,
    @of_decide_eq_true _
      (@List.decidableBAll _ _
        (fun _ => @List.decidableBAll _ _ (fun _ => inferInstance) planets) planets)
      rfl⟩

/-- Witness for C4 at the unordered pair of Sun and Moon. -/
theorem C4_witness :
    generate_conjunction_yogas.countP
      (fun y => (y.planet1 == some ("Sun") && y.planet2 == some ("Moon"))
        || (y.planet1 == some ("Moon") && y.planet2 == some ("Sun"))) = 1 :=
  C4_conjunction.2.2 ("Sun") (by decide) ("Moon") (by decide) (by decide)

/-- Claim C9: the aspect generator emits exactly 201 records; Jupiter, Saturn
and Mars get the full 60 records each, Rahu is truncated at 21 records (source
houses 1-4 complete with 5 records each, then only the opposition record of
source house 5), and the last emitted record is the one appended at counter
value 600. -/
theorem C9_aspect_breakdown :
    generate_aspect_yogas.length = 201
    ∧ generate_aspect_yogas.countP (fun y => y.planet == some ("Jupiter")) = 60
    ∧ generate_aspect_yogas.countP (fun y => y.planet == some ("Saturn")) = 60
    ∧ generate_aspect_yogas.countP (fun y => y.planet == some ("Mars")) = 60
    ∧ generate_aspect_yogas.countP (fun y => y.planet == some ("Rahu")) = 21
    ∧ generate_aspect_yogas.countP
        (fun y => y.planet == some ("Rahu") && y.from_house == some 1) = 5
    ∧ generate_aspect_yogas.countP
        (fun y => y.planet == some ("Rahu") && y.from_house == some 2) = 5
    ∧ generate_aspect_yogas.countP
        (fun y => y.planet == some ("Rahu") && y.from_house == some 3) = 5
    ∧ generate_aspect_yogas.countP
        (fun y => y.planet == some ("Rahu") && y.from_house == some 4) = 5
    ∧ (generate_aspect_yogas.filter
        (fun y => y.planet == some ("Rahu") && y.from_house == some 5)).map
          (fun y => y.aspect_type) = [some ("opposition")]
    ∧ (generate_aspect_yogas.map (fun y => y.id)).getLast? = some ("ASP_600") := by decide

/-- Claim C8: the pipeline is deterministic; whatever output artifact a prior
run left behind, the generated record list and the serialized document are the
same. -/
theorem C8_deterministic :
    ∀ prior1 prior2 : Option String, run_pipeline prior1 = run_pipeline prior2 :=
  fun _ _ => rfl

/-- Witness for C8: a run with no prior artifact and a run over a stale
artifact produce the same records and document. -/
theorem C8_witness : run_pipeline none = run_pipeline (some ("stale")) :=
  C8_deterministic none (some ("stale"))

/-- Claim C2: the aggregated list is the concatenation of the five generators'
outputs in the fixed order house-lordship, planet-in-house, conjunction,
aspect, nakshatra; its length is 42 + 84 + 36 + (aspect record count) + 162;
and the per-category frequency counts of the `type` field computed by the
driver sum to that same total. -/
theorem C2_pipeline_totals :
    all_yogas = generate_house_lordship_yogas ++ generate_planet_house_yogas
      ++ generate_conjunction_yogas ++ generate_aspect_yogas ++ generate_nakshatra_yogas
    ∧ all_yogas.length = 42 + 84 + 36 + generate_aspect_yogas.length + 162
    ∧ (types_stats.map (fun kv => kv.2)).sum = all_yogas.length :=
  ⟨rfl, by decide, by decide⟩

/-- Claim C6: every aggregated record carries one of the five category tags,
has the category-specific fields required for that tag, keeps every house
field in 1-12 and every planet field in the fixed planet vocabulary, and
every aspect type is opposition, square or trine. -/
theorem C6_record_invariants : ∀ y ∈ all_yogas, record_ok y = true :=
  @of_decide_eq_true _
    (@List.decidableBAll _ _ (fun _ => inferInstance) all_yogas)
    rfl

/-- Witness for C6 at the first aggregated record. -/
theorem C6_witness : record_ok (all_yogas.get ⟨0, by decide⟩) = true :=
  C6_record_invariants (all_yogas.get ⟨0, by decide⟩) (List.get_mem _ _ _)

/-- Claim C7: all record ids in the aggregated list of one run are pairwise
distinct.  The per-category counters embedded in the ids are strictly
increasing along the whole run (bands 100-141, 200-283, 300-335, 400-600,
700-861), so the numeric suffixes, and with them the ids, never repeat. -/
theorem C7_ids_nodup : (all_yogas.map (fun y => y.id)).Nodup := by
  have hch := increasing_chain ((all_yogas.map (fun y => y.id)).map id_key) (by rfl)
  exact List.Nodup.of_map id_key
    (List.chain'_iff_pairwise.mp hch |>.imp (fun h => Nat.ne_of_lt h))

/-- Claim C10: the conjunction generator's output equals the plain enumeration
of all index pairs i < j over the full 9-planet list, and the string Ascendant
tested by the skip branch is not in the planet vocabulary. -/
theorem C10_conjunction_refines_plain :
    generate_conjunction_yogas = conjunction_plain ∧ "Ascendant" ∉ planets := by decide

end YogaGen
